import Mathlib

set_option autoImplicit false

namespace LivingLytics

/-!
Shallow embedding of the Living Lytics analytics backend core
(`main.py`, `scheduler_utils.py`, `models.py`).

Dates are modelled as `Int` day indices; by convention day `0` is a Monday,
so Python `date.weekday()` (Monday = 0 .. Sunday = 6) is `d % 7`.
Timestamps (`time.time()`, `datetime.now()`) are modelled as `Int` seconds,
except the rate limiter where `Rat` models Python floats exactly.
Library primitives the code calls (SHA-256, HMAC, Python `float(str)`
parsing, JSON parsing) are abstracted as function parameters; the control
flow around them is translated from the source.
-/

/-- Weekday of a day index: Monday = 0 .. Sunday = 6, as Python `weekday()`. -/
def weekday (d : Int) : Int := d % 7

/-- From `scheduler_utils.get_last_completed_week`: subtract `weekday()` days
to find the current week Monday, then step back one full week, returning
(last Monday, last Sunday). -/
def get_last_completed_week (today : Int) : Int × Int :=
  let days_since_monday := today % 7
  let current_monday := today - days_since_monday
  let last_sunday := current_monday - 1
  let last_monday := last_sunday - 6
  (last_monday, last_sunday)

/-- From `main.digest_run`: `end_date = date.today()`,
`start_date = end_date - timedelta(days=payload.days)`. -/
def digest_run_window (today : Int) (days : Int) : Int × Int :=
  (today - days, today)

/-! ## OAuth CSRF state cache (`main.generate_oauth_state`, `main.verify_oauth_state`)

The store `oauth_state_store : Dict[str, Dict[str, Any]]` maps a state token
to `\x7b"email": email, "expires_at": timestamp\x7d`.  We model the dict as an
association list with unique keys; the mutex makes each operation atomic, so
the sequential functions below are the whole behaviour. -/

structure OAuthStateData where
  email : String
  expires_at : Int
deriving DecidableEq

/-- The in-memory `oauth_state_store` dict. -/
abbrev OAuthStore := List (String × OAuthStateData)

/-- Python `dict.get`: first (unique) binding of the key. -/
def dictGet {α : Type} (store : List (String × α)) (k : String) : Option α :=
  match store with
  | [] => none
  | kv :: rest => if kv.1 == k then some kv.2 else dictGet rest k

/-- Python `del store[k]` (also used to model overwrite-on-assignment). -/
def dictErase {α : Type} (store : List (String × α)) (k : String) :
    List (String × α) :=
  store.filter (fun kv => kv.1 != k)

/-- From `main.generate_oauth_state`: evict every entry with
`expires_at < now`, then store the fresh token with `expires_at = now + 600`.
The token itself is a SHA-256 hex digest; its value is passed in as
`state_token`. Returns the updated store. -/
def generate_oauth_state (email : String) (state_token : String) (now : Int)
    (store : OAuthStore) : OAuthStore :=
  let cleaned := (store.filter (fun kv => !(kv.2.expires_at < now))).filter
    (fun kv => kv.1 != state_token)
  (state_token, ⟨email, now + 600⟩) :: cleaned

/-- From `main.verify_oauth_state`: look the token up; absent gives `none`;
expired (`expires_at < now`) deletes the entry and gives `none`; otherwise
delete the entry (one-time use) and return the associated email. -/
def verify_oauth_state (state_token : String) (now : Int) (store : OAuthStore) :
    Option String × OAuthStore :=
  match dictGet store state_token with
  | none => (none, store)
  | some state_data =>
    if state_data.expires_at < now then
      (none, dictErase store state_token)
    else
      (some state_data.email, dictErase store state_token)

theorem dictGet_dictErase {α : Type} (store : List (String × α)) (k : String) :
    dictGet (dictErase store k) k = none := by
  induction store with
  | nil => rfl
  | cons kv rest ih =>
    by_cases h : kv.1 = k
    · simpa [dictErase, List.filter_cons, h] using ih
    · simpa [dictErase, List.filter_cons, h, dictGet] using ih

theorem dictGet_cons_self {α : Type} (kv : String × α)
    (rest : List (String × α)) : dictGet (kv :: rest) kv.1 = some kv.2 := by
  simp [dictGet]

/-- C2: a token freshly issued for an identity, consumed within its TTL
(at most 600 seconds after issuance), is returned to exactly one caller:
the first consume yields exactly that identity, and consuming the same
token again on the resulting store yields `none` at any later time. -/
theorem oauth_state_consumed_exactly_once
    (email state_token : String) (now t1 t2 : Int) (store : OAuthStore)
    (httl : t1 ≤ now + 600) :
    let store1 := generate_oauth_state email state_token now store
    let first := verify_oauth_state state_token t1 store1
    first.1 = some email ∧
    (verify_oauth_state state_token t2 first.2).1 = none := by
  intro store1 first
  have hget : dictGet store1 state_token = some ⟨email, now + 600⟩ :=
    dictGet_cons_self
      (state_token, (⟨email, now + 600⟩ : OAuthStateData)) _
  have hnotexp : ¬ ((now + 600 : Int) < t1) := not_lt.mpr httl
  have hfirst : first = (some email, dictErase store1 state_token) := by
    show verify_oauth_state state_token t1 store1 = _
    rw [verify_oauth_state, hget]
    simp [hnotexp]
  constructor
  · rw [hfirst]
  · rw [hfirst]
    show (verify_oauth_state state_token t2 (dictErase store1 state_token)).1 = none
    rw [verify_oauth_state, dictGet_dictErase]

/-- Witness for `oauth_state_consumed_exactly_once` at concrete inputs. -/
theorem oauth_state_consumed_exactly_once_witness :
    let store1 := generate_oauth_state "a@x.com" "tok" 100 []
    let first := verify_oauth_state "tok" 400 store1
    first.1 = some "a@x.com" ∧
    (verify_oauth_state "tok" 9999 first.2).1 = none :=
  oauth_state_consumed_exactly_once "a@x.com" "tok" 100 400 9999 [] (by decide)

/-- C7: a token issued more than 600 seconds before the consume attempt is
reported absent even on the first attempt: the lookup past `expires_at`
returns `none`. -/
theorem oauth_state_expired_not_found
    (email state_token : String) (now t1 : Int) (store : OAuthStore)
    (hlate : now + 600 < t1) :
    (verify_oauth_state state_token t1
      (generate_oauth_state email state_token now store)).1 = none := by
  have hget : dictGet (generate_oauth_state email state_token now store)
      state_token = some ⟨email, now + 600⟩ :=
    dictGet_cons_self
      (state_token, (⟨email, now + 600⟩ : OAuthStateData)) _
  rw [verify_oauth_state, hget]
  simp [hlate]

/-- Witness for `oauth_state_expired_not_found` at concrete inputs. -/
theorem oauth_state_expired_not_found_witness :
    (verify_oauth_state "tok" 701
      (generate_oauth_state "a@x.com" "tok" 100 [])).1 = none :=
  oauth_state_expired_not_found "a@x.com" "tok" 100 701 [] (by decide)

/-! ## Webhook ingest (`main.resend_webhook`, unique index from `main.on_startup`)

`on_startup` creates `CREATE UNIQUE INDEX IF NOT EXISTS email_events_provider_unique
ON email_events(provider_id)`; the insert in `resend_webhook` is
`INSERT ... ON CONFLICT (provider_id) DO NOTHING`.  HMAC-SHA256, SHA-256 and
JSON parsing are abstracted as function parameters. -/

/-- Python `a or b` on an optional string: `None` and the empty string are falsy. -/
def pyOrOpt (a b : Option String) : Option String :=
  match a with
  | some s => if s.isEmpty then b else some s
  | none => b

/-- Python `a or d` with a string default: `None` and the empty string are falsy. -/
def pyOrD (a : Option String) (d : String) : String :=
  match a with
  | some s => if s.isEmpty then d else s
  | none => d

/-- The fields of the parsed Resend webhook JSON that `resend_webhook` reads:
`type`, `id`, `data.id`, `to`, `email`, `data.to`, `subject`, `data.subject`.
A missing key is `none`; a list-valued `to` is represented by its first
element (the normalization the code performs on lists). -/
structure WebhookPayload where
  etype : Option String
  eid : Option String
  dataId : Option String
  pto : Option String
  pemail : Option String
  dataTo : Option String
  subj : Option String
  dataSubj : Option String
deriving DecidableEq

/-- A persisted `email_events` row (`models.EmailEvent`). -/
structure EmailEventRow where
  email : String
  event_type : String
  provider_id : String
  subject : Option String
deriving DecidableEq

abbrev EmailEventsTable := List EmailEventRow

/-- `INSERT ... ON CONFLICT (provider_id) DO NOTHING` against the unique
index on `provider_id`: a row whose key is already present is absorbed. -/
def insertOnConflictDoNothing (row : EmailEventRow) (t : EmailEventsTable) :
    EmailEventsTable :=
  if t.any (fun r => r.provider_id == row.provider_id) then t else t ++ [row]

/-- Idempotency key derivation in `resend_webhook`:
`payload.get("id") or payload.get("data").get("id")`, else a SHA-256 hex
digest of the raw body. -/
def derived_provider_id (sha256hex : String → String) (raw_body : String)
    (payload : WebhookPayload) : String :=
  pyOrD (pyOrOpt payload.eid payload.dataId) (sha256hex raw_body)

/-- Field normalization in `resend_webhook` step 4: the row to insert.
`event_type = payload.get("type") or "unknown"`; the email cascade
`payload.get("to") or payload.get("email") or payload.get("data").get("to")
or "unknown"`; `subject = payload.get("subject") or
payload.get("data").get("subject")`; and the derived idempotency key. -/
def webhookRow (sha256hex : String → String) (raw_body : String)
    (payload : WebhookPayload) : EmailEventRow :=
  let event_type := pyOrD payload.etype "unknown"
  let provider_id := derived_provider_id sha256hex raw_body payload
  let email :=
    pyOrD (pyOrOpt payload.pto (pyOrOpt payload.pemail payload.dataTo))
      "unknown"
  let subject := pyOrOpt payload.subj payload.dataSubj
  ⟨email, event_type, provider_id, subject⟩

/-- Outcome of `resend_webhook` at the HTTP boundary. -/
inductive WebhookResult where
  | ok
  | errMissingSecret
  | errMissingSignature
  | errBadSignature
  | errBadJson
deriving DecidableEq

/-- HTTP status each outcome is returned with in `resend_webhook`. -/
def webhookStatus : WebhookResult → Nat
  | .ok => 200
  | .errMissingSecret => 500
  | .errMissingSignature => 400
  | .errBadSignature => 403
  | .errBadJson => 400

/-- From `main.resend_webhook`: reject on missing secret (500), missing
`X-Resend-Signature` (400), HMAC-SHA256 hex mismatch under constant-time
compare (403); only then parse the JSON (400 on parse failure); normalize
fields, derive the idempotency key, and insert with conflict absorption.
`hmacHex secret body` is the hex HMAC-SHA256 oracle, `sha256hex` the plain
hash, `parseJson` the JSON parser. -/
def resend_webhook (hmacHex : String → String → String)
    (sha256hex : String → String) (parseJson : String → Option WebhookPayload)
    (raw_body : String) (signature secret : Option String)
    (events : EmailEventsTable) : WebhookResult × EmailEventsTable :=
  match secret with
  | none => (.errMissingSecret, events)
  | some sec =>
    match signature with
    | none => (.errMissingSignature, events)
    | some sig =>
      if hmacHex sec raw_body != sig then (.errBadSignature, events)
      else
        match parseJson raw_body with
        | none => (.errBadJson, events)
        | some payload =>
          (.ok, insertOnConflictDoNothing
            (webhookRow sha256hex raw_body payload) events)

/-- C4: a webhook request whose signature header does not equal the hex
HMAC-SHA256 of the exact raw body under the secret, or whose secret or
signature is missing, is rejected (500 for missing secret, 400 for missing
header, 403 for mismatch) with the events table unchanged, and the outcome
does not depend on the JSON parser: the body is parsed only after the
signature check succeeds. -/
theorem resend_webhook_rejects_bad_signature_without_side_effects
    (hmacHex : String → String → String) (sha256hex : String → String)
    (parseJson parseJson2 : String → Option WebhookPayload)
    (raw_body : String) (signature secret : Option String)
    (events : EmailEventsTable)
    (hbad : secret = none ∨ signature = none ∨
      (∀ sec sig, secret = some sec → signature = some sig →
        hmacHex sec raw_body ≠ sig)) :
    (resend_webhook hmacHex sha256hex parseJson raw_body signature secret
        events).1 ≠ .ok ∧
    (resend_webhook hmacHex sha256hex parseJson raw_body signature secret
        events).2 = events ∧
    resend_webhook hmacHex sha256hex parseJson raw_body signature secret
        events =
      resend_webhook hmacHex sha256hex parseJson2 raw_body signature secret
        events ∧
    (secret = none →
      (resend_webhook hmacHex sha256hex parseJson raw_body signature secret
          events).1 = .errMissingSecret) ∧
    (∀ sec, secret = some sec → signature = none →
      (resend_webhook hmacHex sha256hex parseJson raw_body signature secret
          events).1 = .errMissingSignature) ∧
    (∀ sec sig, secret = some sec → signature = some sig →
      (resend_webhook hmacHex sha256hex parseJson raw_body signature secret
          events).1 = .errBadSignature) := by
  match secret, signature with
  | none, _ =>
    simp [resend_webhook]
  | some sec, none =>
    simp [resend_webhook]
  | some sec, some sig =>
    have hne : hmacHex sec raw_body ≠ sig := by
      rcases hbad with h | h | h
      · exact absurd h (by simp)
      · exact absurd h (by simp)
      · exact h sec sig rfl rfl
    simp [resend_webhook, hne]

/-- Witness for `resend_webhook_rejects_bad_signature_without_side_effects`
at concrete inputs. -/
theorem resend_webhook_rejects_bad_signature_witness :
    (resend_webhook (fun s b => s ++ b) (fun b => b) (fun _ => none) "body"
        (some "wrong") (some "sec") []).1 ≠ .ok ∧
    (resend_webhook (fun s b => s ++ b) (fun b => b) (fun _ => none) "body"
        (some "wrong") (some "sec") []).2 = [] ∧
    resend_webhook (fun s b => s ++ b) (fun b => b) (fun _ => none) "body"
        (some "wrong") (some "sec") [] =
      resend_webhook (fun s b => s ++ b) (fun b => b)
        (fun _ => some ⟨none, none, none, none, none, none, none, none⟩)
        "body" (some "wrong") (some "sec") [] ∧
    (some "sec" = (none : Option String) →
      (resend_webhook (fun s b => s ++ b) (fun b => b) (fun _ => none) "body"
          (some "wrong") (some "sec") []).1 = .errMissingSecret) ∧
    (∀ sec, some "sec" = some sec → some "wrong" = (none : Option String) →
      (resend_webhook (fun s b => s ++ b) (fun b => b) (fun _ => none) "body"
          (some "wrong") (some "sec") []).1 = .errMissingSignature) ∧
    (∀ sec sig, some "sec" = some sec → some "wrong" = some sig →
      (resend_webhook (fun s b => s ++ b) (fun b => b) (fun _ => none) "body"
          (some "wrong") (some "sec") []).1 = .errBadSignature) :=
  resend_webhook_rejects_bad_signature_without_side_effects
    (fun s b => s ++ b) (fun b => b) (fun _ => none)
    (fun _ => some ⟨none, none, none, none, none, none, none, none⟩)
    "body" (some "wrong") (some "sec") []
    (Or.inr (Or.inr (by intro sec sig hs hg; simp at hs hg; subst hs; subst hg; decide)))

/-- C3: two webhook deliveries that derive the same idempotency key (same
provider event id, or identical raw bytes hashed when no id is present),
each correctly signed, persist exactly one `email_events` row for that key:
the first insert lands, the duplicate is absorbed by the conflict-free
insert and still acknowledged with 200, not an error. -/
theorem resend_webhook_duplicate_absorbed
    (hmacHex : String → String → String) (sha256hex : String → String)
    (parseJson : String → Option WebhookPayload)
    (body1 body2 sec : String) (p1 p2 : WebhookPayload)
    (events : EmailEventsTable)
    (hp1 : parseJson body1 = some p1) (hp2 : parseJson body2 = some p2)
    (hid : derived_provider_id sha256hex body1 p1 =
      derived_provider_id sha256hex body2 p2)
    (hfresh : events.any
      (fun r => r.provider_id == derived_provider_id sha256hex body1 p1)
        = false) :
    let r1 := resend_webhook hmacHex sha256hex parseJson body1
      (some (hmacHex sec body1)) (some sec) events
    let r2 := resend_webhook hmacHex sha256hex parseJson body2
      (some (hmacHex sec body2)) (some sec) r1.2
    r1.1 = .ok ∧ r2.1 = .ok ∧
    r2.2 = r1.2 ∧
    r2.2.countP
      (fun r => r.provider_id == derived_provider_id sha256hex body1 p1)
        = 1 := by
  intro r1 r2
  have hrowid : (webhookRow sha256hex body1 p1).provider_id =
      derived_provider_id sha256hex body1 p1 := rfl
  have h1 : r1 = (.ok, events ++ [webhookRow sha256hex body1 p1]) := by
    show resend_webhook hmacHex sha256hex parseJson body1
      (some (hmacHex sec body1)) (some sec) events = _
    simp only [resend_webhook, bne_self_eq_false, Bool.false_eq_true,
      if_false, hp1, insertOnConflictDoNothing, hrowid, hfresh]
  have hmem : (events ++ [webhookRow sha256hex body1 p1]).any
      (fun r => r.provider_id == derived_provider_id sha256hex body2 p2)
        = true := by
    rw [List.any_append]
    have : (webhookRow sha256hex body1 p1).provider_id =
        derived_provider_id sha256hex body2 p2 := by rw [hrowid, hid]
    simp [this]
  have h2 : r2 = (.ok, r1.2) := by
    show resend_webhook hmacHex sha256hex parseJson body2
      (some (hmacHex sec body2)) (some sec) r1.2 = _
    simp only [resend_webhook, bne_self_eq_false, Bool.false_eq_true,
      if_false, hp2, insertOnConflictDoNothing]
    rw [h1]
    have hrowid2 : (webhookRow sha256hex body2 p2).provider_id =
        derived_provider_id sha256hex body2 p2 := rfl
    simp only [hrowid2, hmem, if_true]
  refine ⟨by rw [h1], by rw [h2], by rw [h2], ?_⟩
  rw [h2]
  show r1.2.countP _ = 1
  rw [h1]
  show (events ++ [webhookRow sha256hex body1 p1]).countP _ = 1
  rw [List.countP_append]
  have hzero : events.countP
      (fun r => r.provider_id == derived_provider_id sha256hex body1 p1)
        = 0 := by
    rw [List.countP_eq_zero]
    intro a ha
    have := (List.any_eq_false).mp hfresh a ha
    simpa using this
  rw [hzero]
  simp [List.countP_cons, hrowid]

/-- Witness for `resend_webhook_duplicate_absorbed` at concrete inputs:
the payload carries no id, so the key is the hash of the identical bodies. -/
theorem resend_webhook_duplicate_absorbed_witness :
    let hmacHex := fun (s b : String) => s ++ b
    let shaHex := fun (b : String) => "hash-" ++ b
    let parseJson := fun (_ : String) =>
      some (⟨some "email.sent", none, none, some "a@x.com", none, none,
        some "hi", none⟩ : WebhookPayload)
    let r1 := resend_webhook hmacHex shaHex parseJson "body"
      (some (hmacHex "sec" "body")) (some "sec") []
    let r2 := resend_webhook hmacHex shaHex parseJson "body"
      (some (hmacHex "sec" "body")) (some "sec") r1.2
    r1.1 = .ok ∧ r2.1 = .ok ∧
    r2.2 = r1.2 ∧
    r2.2.countP
      (fun r => r.provider_id == derived_provider_id shaHex "body"
        ⟨some "email.sent", none, none, some "a@x.com", none, none,
          some "hi", none⟩) = 1 :=
  resend_webhook_duplicate_absorbed (fun s b => s ++ b)
    (fun b => "hash-" ++ b)
    (fun _ => some ⟨some "email.sent", none, none, some "a@x.com", none, none,
      some "hi", none⟩)
    "body" "body" "sec"
    ⟨some "email.sent", none, none, some "a@x.com", none, none,
      some "hi", none⟩
    ⟨some "email.sent", none, none, some "a@x.com", none, none,
      some "hi", none⟩
    [] rfl rfl rfl (by decide)

/-! ## Rate limiter (`main.InMemoryRateLimiter`)

Token bucket: per key, tokens refill lazily from elapsed wall-clock time at
`refill_rate` tokens/second, capped at `capacity`.  Python floats are
modelled as `Rat` (every quantity in the claims is exactly representable).
The `defaultdict` materializes a fresh bucket with `tokens = capacity` and
`last_refill` equal to the current time on first access.  The lock makes
each `allow` atomic, so the sequential function is the whole behaviour. -/

structure Bucket where
  tokens : Rat
  last_refill : Rat
deriving DecidableEq

structure InMemoryRateLimiter where
  capacity : Rat
  refill_rate : Rat
  buckets : List (String × Bucket)
deriving DecidableEq

/-- From `InMemoryRateLimiter.allow`: refill from elapsed time (capped at
capacity), stamp `last_refill = now`, then admit and decrement only if
enough tokens remain. -/
def allow (rl : InMemoryRateLimiter) (key : String) (tokens : Rat)
    (now : Rat) : Bool × InMemoryRateLimiter :=
  let bucket := (dictGet rl.buckets key).getD ⟨rl.capacity, now⟩
  let elapsed := now - bucket.last_refill
  let refilled := min rl.capacity (bucket.tokens + elapsed * rl.refill_rate)
  if tokens ≤ refilled then
    (true, { rl with
      buckets := (key, ⟨refilled - tokens, now⟩) :: dictErase rl.buckets key })
  else
    (false, { rl with
      buckets := (key, ⟨refilled, now⟩) :: dictErase rl.buckets key })

/-- The module-level limiter: `InMemoryRateLimiter(capacity=10, refill_rate=0.5)`. -/
def rate_limiter : InMemoryRateLimiter := ⟨10, 0.5, []⟩

/-- Iterate `allow` with cost 1 at a fixed instant, collecting the results. -/
def allowRepeat (rl : InMemoryRateLimiter) (key : String) (now : Rat) :
    Nat → List Bool × InMemoryRateLimiter
  | 0 => ([], rl)
  | n + 1 =>
    let step := allow rl key 1 now
    let rest := allowRepeat step.2 key now n
    (step.1 :: rest.1, rest.2)

/-- C8: with capacity 10 and refill rate 0.5/s, from a fresh key with no
elapsed time the first 10 `allow` calls succeed and the 11th fails; after
2 seconds of elapsed time a further `allow` call succeeds. -/
theorem rate_limiter_bucket_scenario :
    (allowRepeat rate_limiter "k" 0 11).1 =
      [true, true, true, true, true, true, true, true, true, true, false] ∧
    (allow (allowRepeat rate_limiter "k" 0 11).2 "k" 1 2).1 = true := by
  norm_num [allowRepeat, allow, rate_limiter, dictGet, dictErase, min_def,
    List.filter]

/-! ## Token refresh (`main.refresh_google_token`, `main.refresh_instagram_token`)

A `models.DataSource` row holds the stored credential.  The upstream token
endpoint is abstracted as `Option TokenResponse`: `none` is a network error
or non-2xx response (`requests.RequestException`), `some` the decoded JSON.
`upstream_calls` counts the outbound POST/GET token-endpoint requests. -/

/-- A `models.DataSource` credential row (timestamps in seconds). -/
structure DataSource where
  user_id : String
  source_name : String
  account_ref : Option String
  access_token : Option String
  refresh_token : Option String
  expires_at : Option Int
  updated_at : Int
deriving DecidableEq

/-- The decoded token-endpoint response body: `tokens.get("access_token")`
and `tokens.get("expires_in")`. -/
structure TokenResponse where
  access_token : Option String
  expires_in : Option Int
deriving DecidableEq

/-- The error responses the refresh paths raise as `HTTPException`s. -/
inductive RefreshError where
  | notConfigured
  | noRefreshToken
  | refreshFailed
  | noAccessTokenInResponse
deriving DecidableEq

/-- Result of a refresh call: the returned token or the raised error, the
credential row after the call, and how many upstream requests were made. -/
structure RefreshOutcome where
  result : Except RefreshError (Option String)
  cred : DataSource
  upstream_calls : Nat

/-- The validity check `data_source.expires_at and data_source.expires_at >
now + buffer` (`buffer` = 5 minutes for Google, 7 days for Instagram);
a `None` expiry is falsy, so it forces a refresh. -/
def tokenStillValid (buffer now : Int) (expires_at : Option Int) : Bool :=
  match expires_at with
  | some exp => decide (now + buffer < exp)
  | none => false

/-- From `main.refresh_google_token`: return the stored token untouched when
still valid under the 5-minute buffer; otherwise require a refresh token
(401 without one, zero upstream calls), POST the `refresh_token` grant once,
and on success update `access_token`, `expires_at = now + expires_in`
(default 3600) and `updated_at`, leaving every other field alone. -/
def refresh_google_token (configured : Bool) (upstream : Option TokenResponse)
    (now : Int) (ds : DataSource) : RefreshOutcome :=
  if !configured then ⟨.error .notConfigured, ds, 0⟩
  else if tokenStillValid 300 now ds.expires_at then ⟨.ok ds.access_token, ds, 0⟩
  else
    match ds.refresh_token with
    | none => ⟨.error .noRefreshToken, ds, 0⟩
    | some _ =>
      match upstream with
      | none => ⟨.error .refreshFailed, ds, 1⟩
      | some tokens =>
        let expires_in := tokens.expires_in.getD 3600
        match tokens.access_token with
        | none => ⟨.error .noAccessTokenInResponse, ds, 1⟩
        | some tok =>
          if tok.isEmpty then ⟨.error .noAccessTokenInResponse, ds, 1⟩
          else
            ⟨.ok (some tok),
             { ds with access_token := some tok,
                       expires_at := some (now + expires_in),
                       updated_at := now }, 1⟩

/-- From `main.refresh_instagram_token`: return the stored token untouched
when still valid under the 7-day buffer; otherwise exchange the current
long-lived token once (`fb_exchange_token`, no refresh token involved), and
on success update `access_token`, `expires_at = now + expires_in` (default
5184000) and `updated_at`. -/
def refresh_instagram_token (configured : Bool)
    (upstream : Option TokenResponse) (now : Int) (ds : DataSource) :
    RefreshOutcome :=
  if !configured then ⟨.error .notConfigured, ds, 0⟩
  else if tokenStillValid 604800 now ds.expires_at then
    ⟨.ok ds.access_token, ds, 0⟩
  else
    match upstream with
    | none => ⟨.error .refreshFailed, ds, 1⟩
    | some tokens =>
      let expires_in := tokens.expires_in.getD 5184000
      match tokens.access_token with
      | none => ⟨.error .noAccessTokenInResponse, ds, 1⟩
      | some tok =>
        if tok.isEmpty then ⟨.error .noAccessTokenInResponse, ds, 1⟩
        else
          ⟨.ok (some tok),
           { ds with access_token := some tok,
                     expires_at := some (now + expires_in),
                     updated_at := now }, 1⟩

/-- A stored Google credential with an expired token and no refresh token. -/
def dsExpiredNoRefresh : DataSource :=
  ⟨"u1", "google_analytics", some "ga@x.com", some "stale-token", none,
    some 0, 0⟩

/-- C5 counterexample: for this credential `expires_at` is in the past (so
the claim demands exactly one upstream call), yet `refresh_google_token`
makes zero upstream calls and raises 401 for the missing refresh token. -/
theorem refresh_google_no_refresh_token_zero_calls :
    tokenStillValid 300 1000 dsExpiredNoRefresh.expires_at = false ∧
    (refresh_google_token true none 1000 dsExpiredNoRefresh).upstream_calls
      = 0 ∧
    (refresh_google_token true none 1000 dsExpiredNoRefresh).result
      = .error .noRefreshToken ∧
    (refresh_google_token true none 1000 dsExpiredNoRefresh).cred
      = dsExpiredNoRefresh :=
  ⟨rfl, rfl, rfl, rfl⟩

/-- C5 amended: with the provider configured, a refresh is a no-op returning
the stored token with no upstream call and no mutation when `expires_at` is
more than the buffer (5 minutes Google, 7 days Instagram) in the future;
within the buffer or past it, Instagram always makes exactly one upstream
call, and Google makes exactly one when a refresh token is stored but zero
(failing 401 Unauthorized, credential untouched) when none is. -/
theorem token_refresh_buffer_behaviour
    (upstream : Option TokenResponse) (now : Int) (ds : DataSource) :
    (tokenStillValid 300 now ds.expires_at = true →
      refresh_google_token true upstream now ds = ⟨.ok ds.access_token, ds, 0⟩)
    ∧
    (tokenStillValid 604800 now ds.expires_at = true →
      refresh_instagram_token true upstream now ds
        = ⟨.ok ds.access_token, ds, 0⟩) ∧
    (tokenStillValid 300 now ds.expires_at = false →
      ds.refresh_token.isSome = true →
      (refresh_google_token true upstream now ds).upstream_calls = 1) ∧
    (tokenStillValid 300 now ds.expires_at = false → ds.refresh_token = none →
      (refresh_google_token true upstream now ds).upstream_calls = 0 ∧
      (refresh_google_token true upstream now ds).result
        = .error .noRefreshToken ∧
      (refresh_google_token true upstream now ds).cred = ds) ∧
    (tokenStillValid 604800 now ds.expires_at = false →
      (refresh_instagram_token true upstream now ds).upstream_calls = 1) := by
  refine ⟨?_, ?_, ?_, ?_, ?_⟩
  · intro h
    simp [refresh_google_token, h]
  · intro h
    simp [refresh_instagram_token, h]
  · intro h hsome
    obtain ⟨rt, hrt⟩ := Option.isSome_iff_exists.mp hsome
    simp only [refresh_google_token, Bool.not_true, Bool.false_eq_true,
      if_false, h, hrt]
    cases upstream with
    | none => rfl
    | some tokens =>
      cases htok : tokens.access_token with
      | none => simp [htok]
      | some tok =>
        by_cases he : tok.isEmpty <;> simp [htok, he]
  · intro h hnone
    simp [refresh_google_token, h, hnone]
  · intro h
    simp only [refresh_instagram_token, Bool.not_true, Bool.false_eq_true,
      if_false, h]
    cases upstream with
    | none => rfl
    | some tokens =>
      cases htok : tokens.access_token with
      | none => simp [htok]
      | some tok =>
        by_cases he : tok.isEmpty <;> simp [htok, he]

/-- Witness for `token_refresh_buffer_behaviour` at concrete inputs: a
credential expiring far in the future (no-op case) and the same theorem
instantiated where the stored expiry forces the refresh branches. -/
theorem token_refresh_buffer_behaviour_witness :
    (tokenStillValid 300 1000
        (⟨"u1", "google_analytics", none, some "tok", some "rt", some 5000, 0⟩
          : DataSource).expires_at = true →
      refresh_google_token true none 1000
          ⟨"u1", "google_analytics", none, some "tok", some "rt", some 5000, 0⟩
        = ⟨.ok (some "tok"),
            ⟨"u1", "google_analytics", none, some "tok", some "rt",
              some 5000, 0⟩, 0⟩) ∧
    (tokenStillValid 604800 1000
        (⟨"u1", "google_analytics", none, some "tok", some "rt", some 5000, 0⟩
          : DataSource).expires_at = true →
      refresh_instagram_token true none 1000
          ⟨"u1", "google_analytics", none, some "tok", some "rt", some 5000, 0⟩
        = ⟨.ok (some "tok"),
            ⟨"u1", "google_analytics", none, some "tok", some "rt",
              some 5000, 0⟩, 0⟩) ∧
    (tokenStillValid 300 1000
        (⟨"u1", "google_analytics", none, some "tok", some "rt", some 5000, 0⟩
          : DataSource).expires_at = false →
      (⟨"u1", "google_analytics", none, some "tok", some "rt", some 5000, 0⟩
          : DataSource).refresh_token.isSome = true →
      (refresh_google_token true none 1000
        ⟨"u1", "google_analytics", none, some "tok", some "rt",
          some 5000, 0⟩).upstream_calls = 1) ∧
    (tokenStillValid 300 1000
        (⟨"u1", "google_analytics", none, some "tok", some "rt", some 5000, 0⟩
          : DataSource).expires_at = false →
      (⟨"u1", "google_analytics", none, some "tok", some "rt", some 5000, 0⟩
          : DataSource).refresh_token = none →
      (refresh_google_token true none 1000
        ⟨"u1", "google_analytics", none, some "tok", some "rt",
          some 5000, 0⟩).upstream_calls = 0 ∧
      (refresh_google_token true none 1000
        ⟨"u1", "google_analytics", none, some "tok", some "rt",
          some 5000, 0⟩).result = .error .noRefreshToken ∧
      (refresh_google_token true none 1000
        ⟨"u1", "google_analytics", none, some "tok", some "rt",
          some 5000, 0⟩).cred
        = ⟨"u1", "google_analytics", none, some "tok", some "rt",
            some 5000, 0⟩) ∧
    (tokenStillValid 604800 1000
        (⟨"u1", "google_analytics", none, some "tok", some "rt", some 5000, 0⟩
          : DataSource).expires_at = false →
      (refresh_instagram_token true none 1000
        ⟨"u1", "google_analytics", none, some "tok", some "rt",
          some 5000, 0⟩).upstream_calls = 1) :=
  token_refresh_buffer_behaviour none 1000
    ⟨"u1", "google_analytics", none, some "tok", some "rt", some 5000, 0⟩

/-- C9: on a successful Google refresh (stale token, refresh token present,
upstream returns a non-empty access token), the credential row keeps its
`user_id`, `source_name`, `account_ref` and in particular its stored
`refresh_token` unchanged; only `access_token`, `expires_at` (now plus the
returned `expires_in`, default 3600) and `updated_at` are written. -/
theorem refresh_google_token_frame
    (resp : TokenResponse) (now : Int) (ds : DataSource) (tok : String)
    (hstale : tokenStillValid 300 now ds.expires_at = false)
    (hrt : ds.refresh_token.isSome = true)
    (htok : resp.access_token = some tok) (hne : tok.isEmpty = false) :
    refresh_google_token true (some resp) now ds =
      ⟨.ok (some tok),
       { ds with access_token := some tok,
                 expires_at := some (now + resp.expires_in.getD 3600),
                 updated_at := now }, 1⟩ ∧
    (refresh_google_token true (some resp) now ds).cred.refresh_token
      = ds.refresh_token ∧
    (refresh_google_token true (some resp) now ds).cred.account_ref
      = ds.account_ref ∧
    (refresh_google_token true (some resp) now ds).cred.user_id = ds.user_id ∧
    (refresh_google_token true (some resp) now ds).cred.source_name
      = ds.source_name := by
  obtain ⟨rt, hrteq⟩ := Option.isSome_iff_exists.mp hrt
  have heq : refresh_google_token true (some resp) now ds =
      ⟨.ok (some tok),
       { ds with access_token := some tok,
                 expires_at := some (now + resp.expires_in.getD 3600),
                 updated_at := now }, 1⟩ := by
    simp [refresh_google_token, hstale, hrteq, htok, hne]
  exact ⟨heq, by rw [heq], by rw [heq], by rw [heq], by rw [heq]⟩

/-- Witness for `refresh_google_token_frame` at concrete inputs. -/
theorem refresh_google_token_frame_witness :
    refresh_google_token true (some ⟨some "new", some 3600⟩) 1000
        ⟨"u1", "google_analytics", some "ga@x.com", some "old", some "rt",
          some 900, 0⟩ =
      ⟨.ok (some "new"),
       ⟨"u1", "google_analytics", some "ga@x.com", some "new", some "rt",
         some 4600, 1000⟩, 1⟩ ∧
    (refresh_google_token true (some ⟨some "new", some 3600⟩) 1000
        ⟨"u1", "google_analytics", some "ga@x.com", some "old", some "rt",
          some 900, 0⟩).cred.refresh_token = some "rt" ∧
    (refresh_google_token true (some ⟨some "new", some 3600⟩) 1000
        ⟨"u1", "google_analytics", some "ga@x.com", some "old", some "rt",
          some 900, 0⟩).cred.account_ref = some "ga@x.com" ∧
    (refresh_google_token true (some ⟨some "new", some 3600⟩) 1000
        ⟨"u1", "google_analytics", some "ga@x.com", some "old", some "rt",
          some 900, 0⟩).cred.user_id = "u1" ∧
    (refresh_google_token true (some ⟨some "new", some 3600⟩) 1000
        ⟨"u1", "google_analytics", some "ga@x.com", some "old", some "rt",
          some 900, 0⟩).cred.source_name = "google_analytics" :=
  refresh_google_token_frame ⟨some "new", some 3600⟩ 1000
    ⟨"u1", "google_analytics", some "ga@x.com", some "old", some "rt",
      some 900, 0⟩ "new" (by decide) rfl rfl (by decide)

/-! ## Relational state (`models.py`) and digest scheduler (`scheduler_utils.py`)

`DB` carries the tables the digest and ingest paths touch, plus the emails
handed to the Resend mailer.  Numeric metric values are `Rat`
(SQL `Numeric`).  Email bodies and subjects are rendering, outside the
state effects the claims are about; an email is recorded by recipient. -/

/-- A `models.User` row (the fields the digest path reads/writes). -/
structure UserRow where
  id : String
  email : String
  opt_in_digest : Bool
  last_digest_sent_at : Option Int
deriving DecidableEq

/-- A `models.Metric` row. -/
structure MetricRow where
  user_id : String
  source_name : String
  metric_date : Int
  metric_name : String
  metric_value : Rat
deriving DecidableEq

/-- A `models.DigestLog` row. -/
structure DigestLogRow where
  user_id : String
  period_start : Int
  period_end : Int
  status : String
  error_message : Option String
deriving DecidableEq

structure DB where
  users : List UserRow
  metrics : List MetricRow
  digest_log : List DigestLogRow
  emails_sent : List String
deriving DecidableEq

/-- The four KPI totals returned by `main._collect_kpis_for_user`. -/
structure KPIs where
  ig_sessions : Rat
  ig_conversions : Rat
  ig_reach : Rat
  ig_engagement : Rat
deriving DecidableEq

/-- The SQL filter of `_collect_kpis_for_user`: rows of this user with
`metric_date` between the bounds (inclusive) and this metric name. -/
def metricInRange (uid : String) (s e : Int) (name : String)
    (m : MetricRow) : Bool :=
  m.user_id == uid && decide (s ≤ m.metric_date) &&
    decide (m.metric_date ≤ e) && m.metric_name == name

/-- `SUM(metric_value)` over the filtered rows (the per-name slice of the
GROUP BY in `_collect_kpis_for_user`). -/
def sumMetric (metrics : List MetricRow) (uid : String) (s e : Int)
    (name : String) : Rat :=
  (metrics.filter (metricInRange uid s e name)).foldl
    (fun acc m => acc + m.metric_value) 0

/-- From `main._collect_kpis_for_user`: unknown email gives all-zero KPIs;
otherwise sum each of the four metric names over the inclusive date range. -/
def collect_kpis_for_user (email : String) (s e : Int) (db : DB) : KPIs :=
  match db.users.find? (fun u => u.email == email) with
  | none => ⟨0, 0, 0, 0⟩
  | some user =>
    ⟨sumMetric db.metrics user.id s e "sessions",
     sumMetric db.metrics user.id s e "conversions",
     sumMetric db.metrics user.id s e "reach",
     sumMetric db.metrics user.id s e "engagement"⟩

/-- The KPI collection `main.digest_run` performs for its window. -/
def digest_run_kpis (today : Int) (days : Int) (email : String) (db : DB) :
    KPIs :=
  collect_kpis_for_user email (today - days) today db

/-- Result dict of `scheduler_utils.send_weekly_digest` (status and message). -/
structure DigestResult where
  status : String
  message : String
deriving DecidableEq

/-- The idempotency filter of `send_weekly_digest` step 3: a `digest_log`
row of this user, this period, with `status = sent`. -/
def isSentRowFor (uid : String) (ps pe : Int) (r : DigestLogRow) : Bool :=
  r.user_id == uid && r.period_start == ps && r.period_end == pe &&
    r.status == "sent"

/-- The `SELECT ... WHERE status = sent` existence check of
`send_weekly_digest`. -/
def findSentLog (logs : List DigestLogRow) (uid : String) (ps pe : Int) :
    Option DigestLogRow :=
  logs.find? (isSentRowFor uid ps pe)

/-- From `scheduler_utils.send_weekly_digest`: resolve the user (error if
unknown), skip if opted out, compute the last completed week from `today`,
skip with no side effects when a `sent` row for (user, period) exists;
otherwise attempt the send (`emailOk` abstracts the Resend call), appending
a `sent` row, stamping `last_digest_sent_at = now` and recording the email
on success, or appending an `error` row on mailer failure. -/
def send_weekly_digest (emailOk : Bool) (today now : Int) (user_id : String)
    (db : DB) : DigestResult × DB :=
  match db.users.find? (fun u => u.id == user_id) with
  | none => (⟨"error", "User not found"⟩, db)
  | some user =>
    if !user.opt_in_digest then (⟨"skipped", "User opted out"⟩, db)
    else
      let period := get_last_completed_week today
      match findSentLog db.digest_log user_id period.1 period.2 with
      | some _ => (⟨"skipped", "Already sent for this period"⟩, db)
      | none =>
        if emailOk then
          (⟨"sent", "Digest sent successfully"⟩,
           { db with
             digest_log := db.digest_log ++
               [⟨user_id, period.1, period.2, "sent", none⟩],
             users := db.users.map (fun u =>
               if u.id == user_id then
                 { u with last_digest_sent_at := some now } else u),
             emails_sent := db.emails_sent ++ [user.email] })
        else
          (⟨"error", "send failed"⟩,
           { db with
             digest_log := db.digest_log ++
               [⟨user_id, period.1, period.2, "error", some "send failed"⟩] })

theorem find?_map_update (users : List UserRow) (uid : String) (now : Int)
    (u : UserRow) (h : users.find? (fun v => v.id == uid) = some u) :
    (users.map (fun v => if v.id == uid then
        { v with last_digest_sent_at := some now } else v)).find?
      (fun v => v.id == uid)
    = some { u with last_digest_sent_at := some now } := by
  induction users with
  | nil => simp at h
  | cons a rest ih =>
    by_cases ha : (a.id == uid) = true
    · have h1 : (a :: rest).find? (fun v => v.id == uid) = some a :=
        List.find?_cons_of_pos _ ha
      rw [h1] at h
      obtain rfl : a = u := Option.some_injective _ h
      have hfa : ((if (a.id == uid) = true then
          { a with last_digest_sent_at := some now } else a) ::
          rest.map (fun v => if v.id == uid then
            { v with last_digest_sent_at := some now } else v)).find?
          (fun v => v.id == uid)
        = some (if (a.id == uid) = true then
            { a with last_digest_sent_at := some now } else a) :=
        List.find?_cons_of_pos _ (by simp [ha])
      simp only [List.map_cons]
      rw [hfa, if_pos ha]
    · have h1 : (a :: rest).find? (fun v => v.id == uid)
          = rest.find? (fun v => v.id == uid) :=
        List.find?_cons_of_neg _ ha
      rw [h1] at h
      have hfa : ((if (a.id == uid) = true then
          { a with last_digest_sent_at := some now } else a) ::
          rest.map (fun v => if v.id == uid then
            { v with last_digest_sent_at := some now } else v)).find?
          (fun v => v.id == uid)
        = (rest.map (fun v => if v.id == uid then
            { v with last_digest_sent_at := some now } else v)).find?
          (fun v => v.id == uid) :=
        List.find?_cons_of_neg _ (by simp [ha])
      simp only [List.map_cons]
      rw [hfa]
      exact ih h

theorem findSentLog_append_sent (logs : List DigestLogRow) (uid : String)
    (ps pe : Int) :
    findSentLog (logs ++ [⟨uid, ps, pe, "sent", none⟩]) uid ps pe ≠ none := by
  intro hnone
  rw [findSentLog, List.find?_eq_none] at hnone
  exact hnone ⟨uid, ps, pe, "sent", none⟩ (by simp)
    (by simp [isSentRowFor])

theorem countP_of_find?_none {α : Type} (p : α → Bool) (l : List α)
    (h : l.find? p = none) : l.countP p = 0 := by
  rw [List.countP_eq_zero]
  intro a ha
  have := List.find?_eq_none.mp h a ha
  simpa using this

/-- C1: for a user that exists, is opted in, and has no `sent` row yet for
the period, a successful weekly digest send followed by a second invocation
for the same user and period leaves exactly one `sent` ledger row for the
triple; the second invocation reports `skipped` and has no side effects at
all — the state (ledger, users, sent emails) is exactly the state after the
first call, whatever the mailer would have done. -/
theorem send_weekly_digest_idempotent
    (today now1 now2 : Int) (user_id : String) (db : DB) (u : UserRow)
    (emailOk2 : Bool)
    (hu : db.users.find? (fun v => v.id == user_id) = some u)
    (hopt : u.opt_in_digest = true)
    (hfresh : findSentLog db.digest_log user_id
      (get_last_completed_week today).1 (get_last_completed_week today).2
        = none) :
    let r1 := send_weekly_digest true today now1 user_id db
    let r2 := send_weekly_digest emailOk2 today now2 user_id r1.2
    r1.1.status = "sent" ∧
    r2.1.status = "skipped" ∧
    r2.2 = r1.2 ∧
    r1.2.digest_log.countP (isSentRowFor user_id
      (get_last_completed_week today).1 (get_last_completed_week today).2)
        = 1 ∧
    r1.2.emails_sent = db.emails_sent ++ [u.email] ∧
    r2.2.emails_sent = r1.2.emails_sent := by
  intro r1 r2
  set ps := (get_last_completed_week today).1 with hps
  set pe := (get_last_completed_week today).2 with hpe
  have hperiod : get_last_completed_week today = (ps, pe) := rfl
  have h1 : r1 = (⟨"sent", "Digest sent successfully"⟩,
      { db with
        digest_log := db.digest_log ++ [⟨user_id, ps, pe, "sent", none⟩],
        users := db.users.map (fun v =>
          if v.id == user_id then
            { v with last_digest_sent_at := some now1 } else v),
        emails_sent := db.emails_sent ++ [u.email] }) := by
    show send_weekly_digest true today now1 user_id db = _
    rw [send_weekly_digest, hu]
    simp only [hopt, Bool.not_true, Bool.false_eq_true, if_false, hperiod,
      hfresh, if_true]
  have hu2 : r1.2.users.find? (fun v => v.id == user_id)
      = some { u with last_digest_sent_at := some now1 } := by
    rw [h1]
    exact find?_map_update db.users user_id now1 u hu
  have hlog2 : findSentLog r1.2.digest_log user_id ps pe ≠ none := by
    rw [h1]
    exact findSentLog_append_sent db.digest_log user_id ps pe
  have h2 : r2 = (⟨"skipped", "Already sent for this period"⟩, r1.2) := by
    show send_weekly_digest emailOk2 today now2 user_id r1.2 = _
    rw [send_weekly_digest, hu2]
    simp only [hopt, Bool.not_true, Bool.false_eq_true, if_false, hperiod]
    cases hcase : findSentLog r1.2.digest_log user_id ps pe with
    | none => exact absurd hcase hlog2
    | some row => rfl
  refine ⟨by rw [h1], by rw [h2], by rw [h2], ?_, by rw [h1], by rw [h2]⟩
  rw [h1]
  show (db.digest_log ++
    [(⟨user_id, ps, pe, "sent", none⟩ : DigestLogRow)]).countP
      (isSentRowFor user_id ps pe) = 1
  rw [List.countP_append, countP_of_find?_none _ _ hfresh]
  simp [List.countP_cons, isSentRowFor]

/-- Witness for `send_weekly_digest_idempotent` at concrete inputs. -/
theorem send_weekly_digest_idempotent_witness :
    let db0 : DB := ⟨[⟨"u1", "a@x.com", true, none⟩], [], [], []⟩
    let r1 := send_weekly_digest true 9 900 "u1" db0
    let r2 := send_weekly_digest false 9 950 "u1" r1.2
    r1.1.status = "sent" ∧
    r2.1.status = "skipped" ∧
    r2.2 = r1.2 ∧
    r1.2.digest_log.countP (isSentRowFor "u1"
      (get_last_completed_week 9).1 (get_last_completed_week 9).2) = 1 ∧
    r1.2.emails_sent = [] ++ ["a@x.com"] ∧
    r2.2.emails_sent = r1.2.emails_sent :=
  send_weekly_digest_idempotent 9 900 950 "u1"
    ⟨[⟨"u1", "a@x.com", true, none⟩], [], [], []⟩
    ⟨"u1", "a@x.com", true, none⟩ false rfl rfl rfl

theorem filter_filter_of_imp {α : Type} (p q : α → Bool) (l : List α)
    (h : ∀ a, p a = true → q a = true) :
    (l.filter q).filter p = l.filter p := by
  induction l with
  | nil => rfl
  | cons a rest ih =>
    by_cases hq : q a = true
    · by_cases hp : p a = true <;>
        simp [List.filter_cons, hq, hp, ih]
    · have hp : p a = false := by
        cases hpa : p a with
        | false => rfl
        | true => exact absurd (h a hpa) hq
      simp [List.filter_cons, hq, hp, ih]

/-- C6 counterexample: on a Wednesday (day index 9 under the day-0-is-Monday
convention, `weekday 9 = 2`), `digest_run` with `days = 7` resolves the
window to (previous Wednesday, this Wednesday) = (2, 9), which is not the
immediately preceding Monday through Sunday (0, 6) that
`get_last_completed_week` would give. -/
theorem digest_run_window_is_not_last_completed_week :
    weekday 9 = 2 ∧
    digest_run_window 9 7 = (2, 9) ∧
    get_last_completed_week 9 = (0, 6) ∧
    digest_run_window 9 7 ≠ get_last_completed_week 9 := by
  decide

/-- C6 amended: when `/v1/digest/run` is requested with `days = 7` on a
Wednesday, the period resolves to the trailing window from seven days
before today through today (the previous Wednesday through the current
Wednesday, inclusive) — not the preceding Monday–Sunday — and the KPIs
aggregate only metric rows with `metric_date` inside that inclusive range:
dropping every out-of-range row leaves the collected KPIs unchanged. -/
theorem digest_run_window_and_kpi_range
    (today : Int) (db : DB) (email : String) (hwed : weekday today = 2) :
    digest_run_window today 7 = (today - 7, today) ∧
    weekday (digest_run_window today 7).2 = 2 ∧
    weekday (digest_run_window today 7).1 = 2 ∧
    digest_run_kpis today 7 email db =
      collect_kpis_for_user email (today - 7) today
        { db with metrics := db.metrics.filter (fun m =>
            decide (today - 7 ≤ m.metric_date) &&
              decide (m.metric_date ≤ today)) } := by
  have hstart : weekday (today - 7) = 2 := by
    rw [weekday] at hwed ⊢
    omega
  refine ⟨rfl, hwed, hstart, ?_⟩
  have hsum : ∀ uid name, sumMetric (db.metrics.filter (fun m =>
      decide (today - 7 ≤ m.metric_date) && decide (m.metric_date ≤ today)))
        uid (today - 7) today name
      = sumMetric db.metrics uid (today - 7) today name := by
    intro uid name
    rw [sumMetric, sumMetric, filter_filter_of_imp]
    intro m hm
    rw [metricInRange] at hm
    simp only [Bool.and_eq_true, decide_eq_true_eq] at hm
    simp [hm.1.1.2, hm.1.2]
  rw [digest_run_kpis, collect_kpis_for_user, collect_kpis_for_user]
  cases db.users.find? (fun u => u.email == email) with
  | none => rfl
  | some user => simp only [hsum]

/-- Witness for `digest_run_window_and_kpi_range` at concrete inputs: day 9
is a Wednesday; the database has one user with one in-range and one
out-of-range metric row. -/
theorem digest_run_window_and_kpi_range_witness :
    digest_run_window 9 7 = (9 - 7, 9) ∧
    weekday (digest_run_window 9 7).2 = 2 ∧
    weekday (digest_run_window 9 7).1 = 2 ∧
    digest_run_kpis 9 7 "a@x.com"
        ⟨[⟨"u1", "a@x.com", true, none⟩],
         [⟨"u1", "ga4", 3, "sessions", 5⟩, ⟨"u1", "ga4", 1, "sessions", 7⟩],
         [], []⟩ =
      collect_kpis_for_user "a@x.com" (9 - 7) 9
        { (⟨[⟨"u1", "a@x.com", true, none⟩],
            [⟨"u1", "ga4", 3, "sessions", 5⟩, ⟨"u1", "ga4", 1, "sessions", 7⟩],
            [], []⟩ : DB) with
          metrics := ([⟨"u1", "ga4", 3, "sessions", 5⟩,
            ⟨"u1", "ga4", 1, "sessions", 7⟩] : List MetricRow).filter
            (fun m => decide ((9 : Int) - 7 ≤ m.metric_date) &&
              decide (m.metric_date ≤ (9 : Int))) } :=
  digest_run_window_and_kpi_range 9
    ⟨[⟨"u1", "a@x.com", true, none⟩],
     [⟨"u1", "ga4", 3, "sessions", 5⟩, ⟨"u1", "ga4", 1, "sessions", 7⟩],
     [], []⟩ "a@x.com" (by decide)

/-! ## Metrics ingest (`main.ingest_metrics`)

The request body is pydantic `data : Dict[str, Any]` from JSON; a value is
null, a bool, a number, a string, or some other shape (list/object).
Python `float(value)` converts numbers and bools, parses numeric strings
(the parser is a parameter), and raises `ValueError`/`TypeError` on
everything else — which the loop catches with `continue`. -/

/-- A JSON-decoded Python value as seen by `float(...)`. -/
inductive PyVal where
  | vnull
  | vbool (b : Bool)
  | vnum (q : Rat)
  | vstr (s : String)
  | vother
deriving DecidableEq

/-- Python `float(value)` returning `none` where the builtin raises
`ValueError` or `TypeError`: numbers pass through, bools map to 0/1,
strings go through the numeric parser, null and other shapes fail. -/
def pyFloat (floatOfString : String → Option Rat) : PyVal → Option Rat
  | .vnum q => some q
  | .vbool b => some (if b then 1 else 0)
  | .vstr s => floatOfString s
  | .vnull => none
  | .vother => none

/-- The `/v1/metrics/ingest` request body (`main.MetricIngestRequest`). -/
structure MetricIngestRequest where
  email : String
  source_name : String
  metric_date : String
  data : List (String × PyVal)

/-- Outcome of `ingest_metrics` at the HTTP boundary: 404 unknown user,
400 bad date, or 200 with the ingested count and metric names. -/
inductive IngestResponse where
  | notFound
  | badDate
  | ok (ingested : Nat) (metrics : List String)
deriving DecidableEq

/-- From `main.ingest_metrics`: resolve the user by email (404 if absent),
parse `metric_date` with `date.fromisoformat` (400 on `ValueError`), then
for each entry of `data` in order, convert the value with `float` — adding
a `Metric` row and recording the name on success, silently skipping the
entry otherwise — and commit, answering with the converted count. -/
def ingest_metrics (floatOfString : String → Option Rat)
    (fromisoformat : String → Option Int) (req : MetricIngestRequest)
    (db : DB) : IngestResponse × DB :=
  match db.users.find? (fun u => u.email == req.email) with
  | none => (.notFound, db)
  | some user =>
    match fromisoformat req.metric_date with
    | none => (.badDate, db)
    | some metric_date =>
      let folded := req.data.foldl (fun acc kv =>
        match pyFloat floatOfString kv.2 with
        | some value =>
          (acc.1 ++ [kv.1],
           acc.2 ++ [⟨user.id, req.source_name, metric_date, kv.1, value⟩])
        | none => acc) ([], [])
      (.ok folded.1.length folded.1,
       { db with metrics := db.metrics ++ folded.2 })

/-- The entries of `data` whose values `float` accepts. -/
def convertibleEntries (floatOfString : String → Option Rat)
    (data : List (String × PyVal)) : List (String × PyVal) :=
  data.filter (fun kv => (pyFloat floatOfString kv.2).isSome)

/-- The `Metric` rows built from the convertible entries of `data`. -/
def convertedRows (floatOfString : String → Option Rat) (uid src : String)
    (metric_date : Int) (data : List (String × PyVal)) : List MetricRow :=
  data.filterMap (fun kv => (pyFloat floatOfString kv.2).map
    (fun value => ⟨uid, src, metric_date, kv.1, value⟩))

theorem ingest_fold_spec (floatOfString : String → Option Rat)
    (uid src : String) (metric_date : Int) (data : List (String × PyVal))
    (acc : List String × List MetricRow) :
    data.foldl (fun acc kv =>
      match pyFloat floatOfString kv.2 with
      | some value =>
        (acc.1 ++ [kv.1],
         acc.2 ++ [⟨uid, src, metric_date, kv.1, value⟩])
      | none => acc) acc
    = (acc.1 ++ (convertibleEntries floatOfString data).map Prod.fst,
       acc.2 ++ convertedRows floatOfString uid src metric_date data) := by
  induction data generalizing acc with
  | nil => simp [convertibleEntries, convertedRows]
  | cons kv rest ih =>
    cases hkv : pyFloat floatOfString kv.2 with
    | none =>
      rw [List.foldl_cons]
      simp only [hkv]
      rw [ih]
      simp [convertibleEntries, convertedRows, List.filter_cons,
        List.filterMap_cons, hkv]
    | some value =>
      rw [List.foldl_cons]
      simp only [hkv]
      rw [ih]
      simp [convertibleEntries, convertedRows, List.filter_cons,
        List.filterMap_cons, hkv, List.append_assoc]

/-- C10: for an ingest request naming an existing user with a valid date,
unconvertible values are silently skipped without failing the request: the
response is 200 with `ingested` equal to the number of convertible entries
and their names, exactly those entries become `Metric` rows appended for
that user, the other tables are untouched — and when every value is
unconvertible the request still succeeds with `ingested = 0` and writes
nothing. -/
theorem ingest_metrics_skips_unconvertible
    (floatOfString : String → Option Rat) (fromisoformat : String → Option Int)
    (req : MetricIngestRequest) (db : DB) (user : UserRow) (d : Int)
    (hu : db.users.find? (fun u => u.email == req.email) = some user)
    (hd : fromisoformat req.metric_date = some d) :
    (ingest_metrics floatOfString fromisoformat req db).1
      = .ok (convertibleEntries floatOfString req.data).length
        ((convertibleEntries floatOfString req.data).map Prod.fst) ∧
    (ingest_metrics floatOfString fromisoformat req db).2.metrics
      = db.metrics ++
        convertedRows floatOfString user.id req.source_name d req.data ∧
    (ingest_metrics floatOfString fromisoformat req db).2.users = db.users ∧
    (ingest_metrics floatOfString fromisoformat req db).2.digest_log
      = db.digest_log ∧
    (ingest_metrics floatOfString fromisoformat req db).2.emails_sent
      = db.emails_sent ∧
    ((∀ kv ∈ req.data, pyFloat floatOfString kv.2 = none) →
      (ingest_metrics floatOfString fromisoformat req db).1 = .ok 0 [] ∧
      (ingest_metrics floatOfString fromisoformat req db).2 = db) := by
  have heq : ingest_metrics floatOfString fromisoformat req db
      = (.ok (convertibleEntries floatOfString req.data).length
          ((convertibleEntries floatOfString req.data).map Prod.fst),
         { db with metrics := db.metrics ++
            convertedRows floatOfString user.id req.source_name d req.data }) := by
    rw [ingest_metrics, hu, hd]
    simp [ingest_fold_spec floatOfString user.id req.source_name d req.data
      ([], [])]
  refine ⟨by rw [heq], by rw [heq], by rw [heq], by rw [heq], by rw [heq], ?_⟩
  intro hall
  have hconv : convertibleEntries floatOfString req.data = [] := by
    rw [convertibleEntries, List.filter_eq_nil_iff]
    intro kv hkv
    simp [hall kv hkv]
  have hrows : convertedRows floatOfString user.id req.source_name d req.data
      = [] := by
    rw [convertedRows, List.filterMap_eq_nil_iff]
    intro kv hkv
    simp [hall kv hkv]
  rw [heq, hconv, hrows]
  exact ⟨rfl, by simp⟩

/-- Witness for `ingest_metrics_skips_unconvertible` at concrete inputs:
one convertible entry, one null entry that is skipped. -/
theorem ingest_metrics_skips_unconvertible_witness :
    let f := fun (_ : String) => (none : Option Rat)
    let iso := fun (s : String) =>
      if s == "2025-10-08" then some (2 : Int) else none
    let req : MetricIngestRequest :=
      ⟨"a@x.com", "ga4", "2025-10-08",
        [("sessions", .vnum 5), ("reach", .vnull)]⟩
    let db : DB := ⟨[⟨"u1", "a@x.com", true, none⟩], [], [], []⟩
    (ingest_metrics f iso req db).1
      = .ok (convertibleEntries f req.data).length
        ((convertibleEntries f req.data).map Prod.fst) ∧
    (ingest_metrics f iso req db).2.metrics
      = db.metrics ++ convertedRows f "u1" "ga4" 2 req.data ∧
    (ingest_metrics f iso req db).2.users = db.users ∧
    (ingest_metrics f iso req db).2.digest_log = db.digest_log ∧
    (ingest_metrics f iso req db).2.emails_sent = db.emails_sent ∧
    ((∀ kv ∈ req.data, pyFloat f kv.2 = none) →
      (ingest_metrics f iso req db).1 = .ok 0 [] ∧
      (ingest_metrics f iso req db).2 = db) :=
  ingest_metrics_skips_unconvertible
    (fun _ => none)
    (fun s => if s == "2025-10-08" then some 2 else none)
    ⟨"a@x.com", "ga4", "2025-10-08",
      [("sessions", .vnum 5), ("reach", .vnull)]⟩
    ⟨[⟨"u1", "a@x.com", true, none⟩], [], [], []⟩
    ⟨"u1", "a@x.com", true, none⟩ 2 rfl rfl

end LivingLytics
